import Mathlib

/-!
Verification of the retry policies in `gax/retry_policy.h`
(`google::gax::LimitedErrorCountRetryPolicy` and
`google::gax::LimitedDurationRetryPolicy`) against their specification.

Modelling conventions.
Time points and millisecond counts are modelled as `Int` (milliseconds;
`std::chrono` arithmetic on integral representations is exact).  Each C++
member function that reads the injected clock takes the clock's reading at
the moment of the call as an explicit argument.  Every member call is
embedded as a function returning the pair of its C++ return value and the
object's state after the call, so that (absence of) mutation is visible in
the model.  C++ `&&` short-circuits: in
`!status.IsPermanentFailure() && failure_count_++ < max_failures_`
the post-increment is not evaluated when the status is a permanent failure,
and the embedding reflects this.
-/

namespace Gax

/-- The status collaborator: the policies read exactly one capability,
`IsPermanentFailure`. -/
structure Status where
  IsPermanentFailure : Bool
deriving DecidableEq, Repr

/-- A `std::chrono::duration<Rep, Period>` value: `rep` counts periods and the
period is `num / den` seconds (a `std::ratio`, so `den > 0`). -/
structure ChronoDur where
  rep : Int
  num : Int
  den : Int
deriving DecidableEq, Repr

/-- `std::chrono::duration_cast<std::chrono::milliseconds>(d)`: the exact
value of `d` in milliseconds is `rep * num * 1000 / den`; the cast performs
this computation with C++ integer division, which truncates toward zero
(`Int.tdiv`). -/
def ChronoDur.castMs (d : ChronoDur) : Int :=
  Int.tdiv (d.rep * d.num * 1000) d.den

/-- A `std::chrono::milliseconds` literal, as a `ChronoDur` (period 1/1000 s). -/
def ChronoDur.ofMs (m : Int) : ChronoDur :=
  ⟨m, 1, 1000⟩

/-- A `std::chrono::microseconds` literal, as a `ChronoDur`. -/
def ChronoDur.ofUs (u : Int) : ChronoDur :=
  ⟨u, 1, 1000000⟩

/-- State of a `LimitedErrorCountRetryPolicy` object: the stored
`rpc_duration_` (milliseconds), the mutable `failure_count_` and the
configured `max_failures_` (both C++ `int`). -/
structure LimitedErrorCountRetryPolicy where
  rpc_duration : Int
  failure_count : Int
  max_failures : Int
deriving DecidableEq, Repr

namespace LimitedErrorCountRetryPolicy

/-- The constructor
`LimitedErrorCountRetryPolicy(max_failures, rpc_duration)`: stores
`duration_cast<milliseconds>(rpc_duration)` and starts the counter at 0. -/
def construct (max_failures : Int) (rpc_duration : ChronoDur) :
    LimitedErrorCountRetryPolicy :=
  { rpc_duration := rpc_duration.castMs
    failure_count := 0
    max_failures := max_failures }

/-- `OnFailure`: `return !status.IsPermanentFailure() && failure_count_++ <
max_failures_;`.  `&&` short-circuits, so on a permanent failure the
post-increment is not evaluated; otherwise the pre-increment counter is
compared with the maximum and the counter is incremented. -/
def OnFailure (p : LimitedErrorCountRetryPolicy) (status : Status) :
    Bool × LimitedErrorCountRetryPolicy :=
  if status.IsPermanentFailure then
    (false, p)
  else
    (decide (p.failure_count < p.max_failures),
     { p with failure_count := p.failure_count + 1 })

/-- `OperationDeadline`: `return c_.now() + rpc_duration_;`.  The call is
`const` and assigns no member, so the state component is the input state. -/
def OperationDeadline (p : LimitedErrorCountRetryPolicy) (now : Int) :
    Int × LimitedErrorCountRetryPolicy :=
  (now + p.rpc_duration, p)

/-- `clone`: builds a copy via the copy constructor, which delegates to the
main constructor with `(rhs.max_failures_, rhs.rpc_duration_, rhs.c_)`;
`rpc_duration_` is already in milliseconds, so the cast is the identity and
the new object's counter starts at 0. -/
def clone (p : LimitedErrorCountRetryPolicy) : LimitedErrorCountRetryPolicy :=
  construct p.max_failures (ChronoDur.ofMs p.rpc_duration)

/-- Feed a list of statuses to successive `OnFailure` calls, collecting the
returned booleans and the final state. -/
def run (p : LimitedErrorCountRetryPolicy) :
    List Status → List Bool × LimitedErrorCountRetryPolicy
  | [] => ([], p)
  | s :: rest =>
      let step := p.OnFailure s
      let tail := step.2.run rest
      (step.1 :: tail.1, tail.2)

/-- The state after `k` successive `OnFailure` calls with a transient
status. -/
def iterTransient (p : LimitedErrorCountRetryPolicy) :
    Nat → LimitedErrorCountRetryPolicy
  | 0 => p
  | k + 1 => ((p.iterTransient k).OnFailure ⟨false⟩).2

end LimitedErrorCountRetryPolicy

/-- State of a `LimitedDurationRetryPolicy` object: the stored
`rpc_duration_` and `max_duration_` (milliseconds) and the absolute
`deadline_` computed at construction. -/
structure LimitedDurationRetryPolicy where
  rpc_duration : Int
  max_duration : Int
  deadline : Int
deriving DecidableEq, Repr

namespace LimitedDurationRetryPolicy

/-- The constructor
`LimitedDurationRetryPolicy(max_duration, rpc_duration)`: stores the
millisecond casts of both durations and sets
`deadline_ = max_duration_ + c_.now()`, where `now` is the clock reading at
construction. -/
def construct (max_duration rpc_duration : ChronoDur) (now : Int) :
    LimitedDurationRetryPolicy :=
  { rpc_duration := rpc_duration.castMs
    max_duration := max_duration.castMs
    deadline := max_duration.castMs + now }

/-- `OnFailure`: `return !status.IsPermanentFailure() && c_.now() <
deadline_;`.  No member is assigned, so the state component is the input
state. -/
def OnFailure (p : LimitedDurationRetryPolicy) (status : Status) (now : Int) :
    Bool × LimitedDurationRetryPolicy :=
  if status.IsPermanentFailure then
    (false, p)
  else
    (decide (now < p.deadline), p)

/-- `OperationDeadline`: `return std::min(deadline_, c_.now() +
rpc_duration_);`.  The call is `const` and assigns no member. -/
def OperationDeadline (p : LimitedDurationRetryPolicy) (now : Int) :
    Int × LimitedDurationRetryPolicy :=
  (min p.deadline (now + p.rpc_duration), p)

/-- `clone`: builds a copy via the copy constructor, which delegates to the
main constructor with `(rhs.max_duration_, rhs.rpc_duration_, rhs.c_)`; the
deadline is recomputed from the clock reading at clone time. -/
def clone (p : LimitedDurationRetryPolicy) (now : Int) :
    LimitedDurationRetryPolicy :=
  construct (ChronoDur.ofMs p.max_duration) (ChronoDur.ofMs p.rpc_duration) now

/-- Feed a list of (status, clock reading) events to successive `OnFailure`
calls, collecting the returned booleans and the final state. -/
def run (p : LimitedDurationRetryPolicy) :
    List (Status × Int) → List Bool × LimitedDurationRetryPolicy
  | [] => ([], p)
  | e :: rest =>
      let step := p.OnFailure e.1 e.2
      let tail := step.2.run rest
      (step.1 :: tail.1, tail.2)

end LimitedDurationRetryPolicy

/-! Helper lemmas shared by the claim theorems. -/

namespace ChronoDur

/-- Casting a duration already expressed in milliseconds is the identity. -/
theorem castMs_ofMs (m : Int) : (ofMs m).castMs = m := by
  show Int.tdiv (m * 1 * 1000) 1000 = m
  rw [mul_one]
  exact Int.mul_tdiv_cancel m (by decide)

end ChronoDur

namespace LimitedErrorCountRetryPolicy

/-- One `OnFailure` call never changes the configured maximum. -/
theorem onFailure_max (p : LimitedErrorCountRetryPolicy) (s : Status) :
    (p.OnFailure s).2.max_failures = p.max_failures := by
  unfold OnFailure; split <;> rfl

/-- One `OnFailure` call never changes the stored rpc duration. -/
theorem onFailure_rpc (p : LimitedErrorCountRetryPolicy) (s : Status) :
    (p.OnFailure s).2.rpc_duration = p.rpc_duration := by
  unfold OnFailure; split <;> rfl

/-- One `OnFailure` call never decreases the failure counter. -/
theorem onFailure_count_mono (p : LimitedErrorCountRetryPolicy) (s : Status) :
    p.failure_count ≤ (p.OnFailure s).2.failure_count := by
  unfold OnFailure; split
  · exact le_refl _
  · exact le_of_lt (lt_add_one _)

/-- A run over any status list never changes the configured maximum. -/
theorem run_max (p : LimitedErrorCountRetryPolicy) (ss : List Status) :
    (p.run ss).2.max_failures = p.max_failures := by
  induction ss generalizing p with
  | nil => rfl
  | cons s rest ih => rw [run]; rw [ih]; exact onFailure_max p s

/-- A run over any status list never changes the stored rpc duration. -/
theorem run_rpc (p : LimitedErrorCountRetryPolicy) (ss : List Status) :
    (p.run ss).2.rpc_duration = p.rpc_duration := by
  induction ss generalizing p with
  | nil => rfl
  | cons s rest ih => rw [run]; rw [ih]; exact onFailure_rpc p s

/-- A run over any status list never decreases the failure counter. -/
theorem run_count_mono (p : LimitedErrorCountRetryPolicy) (ss : List Status) :
    p.failure_count ≤ (p.run ss).2.failure_count := by
  induction ss generalizing p with
  | nil => exact le_refl _
  | cons s rest ih =>
      rw [run]
      exact le_trans (onFailure_count_mono p s) (ih (p.OnFailure s).2)

/-- Once the counter has reached the maximum, every call in a run returns
`false`. -/
theorem run_exhausted_count (p : LimitedErrorCountRetryPolicy) (ss : List Status)
    (hp : p.max_failures ≤ p.failure_count) :
    ∀ b ∈ (p.run ss).1, b = false := by
  induction ss generalizing p with
  | nil => intro b hb; cases hb
  | cons s rest ih =>
      intro b hb
      rw [run] at hb
      rcases List.mem_cons.mp hb with h | h
      · subst h
        unfold OnFailure
        split
        · rfl
        · simpa using not_lt.mpr hp
      · refine ih (p.OnFailure s).2 ?_ b h
        rw [onFailure_max]
        exact le_trans hp (onFailure_count_mono p s)

/-- `iterTransient` preserves the configuration and advances the counter by
one per step. -/
theorem iterTransient_spec (p : LimitedErrorCountRetryPolicy) (k : Nat) :
    (p.iterTransient k).failure_count = p.failure_count + k
    ∧ (p.iterTransient k).max_failures = p.max_failures
    ∧ (p.iterTransient k).rpc_duration = p.rpc_duration := by
  induction k with
  | zero => exact ⟨by simp [iterTransient], rfl, rfl⟩
  | succ k ih =>
      refine ⟨?_, ?_, ?_⟩
      · show ((p.iterTransient k).OnFailure ⟨false⟩).2.failure_count = _
        rw [show ((p.iterTransient k).OnFailure ⟨false⟩).2.failure_count
              = (p.iterTransient k).failure_count + 1 from rfl, ih.1]
        push_cast
        ring
      · show ((p.iterTransient k).OnFailure ⟨false⟩).2.max_failures = _
        rw [onFailure_max, ih.2.1]
      · show ((p.iterTransient k).OnFailure ⟨false⟩).2.rpc_duration = _
        rw [onFailure_rpc, ih.2.2]

end LimitedErrorCountRetryPolicy

namespace LimitedDurationRetryPolicy

/-- `OnFailure` never changes the state of a duration-limited policy. -/
theorem onFailure_state (p : LimitedDurationRetryPolicy) (s : Status)
    (now : Int) : (p.OnFailure s now).2 = p := by
  unfold OnFailure; split <;> rfl

/-- A run over any event list never changes the state. -/
theorem run_state (p : LimitedDurationRetryPolicy)
    (events : List (Status × Int)) : (p.run events).2 = p := by
  induction events generalizing p with
  | nil => rfl
  | cons e rest ih => rw [run]; rw [onFailure_state]; exact ih p

/-- Once the clock has reached the deadline, every call whose reading is at
or past it returns `false`. -/
theorem run_exhausted_time (p : LimitedDurationRetryPolicy)
    (events : List (Status × Int))
    (hev : ∀ e ∈ events, p.deadline ≤ e.2) :
    ∀ b ∈ (p.run events).1, b = false := by
  induction events generalizing p with
  | nil => intro b hb; cases hb
  | cons e rest ih =>
      intro b hb
      rw [run] at hb
      rcases List.mem_cons.mp hb with h | h
      · subst h
        unfold OnFailure
        split
        · rfl
        · simpa using not_lt.mpr (hev e (List.mem_cons_self e rest))
      · rw [onFailure_state] at h
        exact ih p (fun f hf => hev f (List.mem_cons_of_mem e hf)) b h

end LimitedDurationRetryPolicy

end Gax

open Gax

/-! Claim theorems. -/

/-- C1, counterexample: the claim says every `OnFailure` call increments the
failure counter by exactly one, including on a permanent failure.  On the
code this is false: `&&` short-circuits, so on a permanent status the
post-increment is never evaluated.  Concretely, for a fresh policy with
`max_failures = 3`, `rpc_duration = 100 ms`, a permanent-failure call leaves
the counter at 0 instead of raising it to 1. -/
theorem C1_counterexample :
    ¬ (((LimitedErrorCountRetryPolicy.construct 3
            (ChronoDur.ofMs 100)).OnFailure ⟨true⟩).2.failure_count
        = (LimitedErrorCountRetryPolicy.construct 3
            (ChronoDur.ofMs 100)).failure_count + 1) := by
  decide

/-- C1, amended: each `OnFailure` call on a transient status increments the
failure counter by exactly one, including when the call returns false; on a
permanent status the counter is unchanged, because the `&&` short-circuit
skips the post-increment. -/
theorem C1_amended_increment (p : LimitedErrorCountRetryPolicy) (s : Status) :
    (p.OnFailure s).2.failure_count
      = p.failure_count + (if s.IsPermanentFailure then 0 else 1) := by
  unfold LimitedErrorCountRetryPolicy.OnFailure
  rcases s with ⟨b⟩
  cases b <;> simp

/-- C2: with `max_failures = N` (any `N ≥ 0`) and only transient failures,
the counter equals the number of calls made, hence is strictly increasing;
each of the first `N` calls to `OnFailure` returns true (the call acting on
the state after `k < N` previous calls); and the `(N+1)`-th call — the call
acting on the state after `N` previous calls, which for `N = 0` is the very
first call — returns false, unconditionally. -/
theorem C2_error_count_budget (N : Nat) (d : ChronoDur) (k : Nat) :
    ((LimitedErrorCountRetryPolicy.construct (N : Int) d).iterTransient
        k).failure_count = (k : Int)
    ∧ (k < N →
        (((LimitedErrorCountRetryPolicy.construct (N : Int) d).iterTransient
          k).OnFailure ⟨false⟩).1 = true)
    ∧ (((LimitedErrorCountRetryPolicy.construct (N : Int) d).iterTransient
        N).OnFailure ⟨false⟩).1 = false
    ∧ ((LimitedErrorCountRetryPolicy.construct (N : Int) d).iterTransient
        k).failure_count
      < ((LimitedErrorCountRetryPolicy.construct (N : Int) d).iterTransient
        (k + 1)).failure_count := by
  have hs := LimitedErrorCountRetryPolicy.iterTransient_spec
    (LimitedErrorCountRetryPolicy.construct (N : Int) d)
  have hzero :
      (LimitedErrorCountRetryPolicy.construct (N : Int) d).failure_count
        = 0 := rfl
  have hmaxc :
      (LimitedErrorCountRetryPolicy.construct (N : Int) d).max_failures
        = (N : Int) := rfl
  have hcount : ∀ j : Nat,
      ((LimitedErrorCountRetryPolicy.construct (N : Int) d).iterTransient
          j).failure_count = (j : Int) := by
    intro j
    rw [(hs j).1, hzero, zero_add]
  have hres : ∀ j : Nat,
      (((LimitedErrorCountRetryPolicy.construct (N : Int) d).iterTransient
          j).OnFailure ⟨false⟩).1
        = decide ((j : Int) < (N : Int)) := by
    intro j
    show decide _ = decide _
    rw [hcount j, (hs j).2.1, hmaxc]
  refine ⟨hcount k, ?_, ?_, ?_⟩
  · intro hk
    rw [hres k]
    simpa using hk
  · rw [hres N]
    simp
  · rw [hcount k, hcount (k + 1)]
    exact_mod_cast lt_add_one k

/-- C2 witness: concrete instance with `N = 3`, `rpc_duration = 100 ms`,
`k = 1`, the inner `k < N` hypothesis discharged; plus the `N = 0` edge
case, where the very first transient call already returns false. -/
theorem C2_witness :
    ((LimitedErrorCountRetryPolicy.construct ((3 : Nat) : Int)
        (ChronoDur.ofMs 100)).iterTransient 1).failure_count = ((1 : Nat) : Int)
    ∧ (((LimitedErrorCountRetryPolicy.construct ((3 : Nat) : Int)
        (ChronoDur.ofMs 100)).iterTransient 1).OnFailure ⟨false⟩).1 = true
    ∧ (((LimitedErrorCountRetryPolicy.construct ((3 : Nat) : Int)
        (ChronoDur.ofMs 100)).iterTransient 3).OnFailure ⟨false⟩).1 = false
    ∧ ((LimitedErrorCountRetryPolicy.construct ((3 : Nat) : Int)
        (ChronoDur.ofMs 100)).iterTransient 1).failure_count
      < ((LimitedErrorCountRetryPolicy.construct ((3 : Nat) : Int)
        (ChronoDur.ofMs 100)).iterTransient (1 + 1)).failure_count
    ∧ (((LimitedErrorCountRetryPolicy.construct ((0 : Nat) : Int)
        (ChronoDur.ofMs 100)).iterTransient 0).OnFailure ⟨false⟩).1 = false :=
  ⟨(C2_error_count_budget 3 (ChronoDur.ofMs 100) 1).1,
   (C2_error_count_budget 3 (ChronoDur.ofMs 100) 1).2.1 (by decide),
   (C2_error_count_budget 3 (ChronoDur.ofMs 100) 1).2.2.1,
   (C2_error_count_budget 3 (ChronoDur.ofMs 100) 1).2.2.2,
   (C2_error_count_budget 0 (ChronoDur.ofMs 100) 0).2.2.1⟩

/-- C3: `OperationDeadline` of a duration-limited policy returns the minimum
of the overall deadline fixed at construction (`max_duration + now-at-construction`)
and `now + rpc_duration`; in particular it never exceeds the overall
deadline. -/
theorem C3_duration_op_deadline (maxd rpcd : ChronoDur) (t0 now : Int) :
    ((LimitedDurationRetryPolicy.construct maxd rpcd
        t0).OperationDeadline now).1
      = min (maxd.castMs + t0) (now + rpcd.castMs)
    ∧ ((LimitedDurationRetryPolicy.construct maxd rpcd
        t0).OperationDeadline now).1 ≤ maxd.castMs + t0 :=
  ⟨rfl, min_le_left _ _⟩

/-- C4: for both variants, in any internal state, a permanent-failure status
makes `OnFailure` return false. -/
theorem C4_permanent_no_retry (s : Status) (hs : s.IsPermanentFailure = true)
    (p : LimitedErrorCountRetryPolicy) (q : LimitedDurationRetryPolicy)
    (now : Int) :
    (p.OnFailure s).1 = false ∧ (q.OnFailure s now).1 = false := by
  unfold LimitedErrorCountRetryPolicy.OnFailure
    LimitedDurationRetryPolicy.OnFailure
  rw [hs]
  exact ⟨rfl, rfl⟩

/-- C4 witness: concrete permanent status against concrete states of both
variants. -/
theorem C4_witness :
    ((⟨3, 1, 3⟩ : LimitedErrorCountRetryPolicy).OnFailure ⟨true⟩).1 = false
    ∧ ((⟨1000, 5000, 5000⟩ : LimitedDurationRetryPolicy).OnFailure
        ⟨true⟩ 10).1 = false :=
  C4_permanent_no_retry ⟨true⟩ rfl ⟨3, 1, 3⟩ ⟨1000, 5000, 5000⟩ 10

/-- C5: `clone` of an error-count policy, after any sequence of failures,
equals the freshly constructed policy with the same configuration (counter
reset to 0); `clone` of a duration-limited policy at clock reading `now`
equals a fresh instance constructed at `now`, so its deadline is a fresh
full-length window `max_duration + now`, not the source's remaining budget.
States are immutable values in this model, so no operation on a clone can
affect the source. -/
theorem C5_clone_fresh (N : Int) (d maxd rpcd : ChronoDur) (ss : List Status)
    (t0 now : Int) :
    ((LimitedErrorCountRetryPolicy.construct N d).run ss).2.clone
      = LimitedErrorCountRetryPolicy.construct N d
    ∧ ((LimitedErrorCountRetryPolicy.construct N d).run
        ss).2.clone.failure_count = 0
    ∧ (LimitedDurationRetryPolicy.construct maxd rpcd t0).clone now
      = LimitedDurationRetryPolicy.construct maxd rpcd now
    ∧ ((LimitedDurationRetryPolicy.construct maxd rpcd t0).clone
        now).deadline = maxd.castMs + now := by
  refine ⟨?_, rfl, ?_, ?_⟩
  · unfold LimitedErrorCountRetryPolicy.clone
    rw [LimitedErrorCountRetryPolicy.run_max,
      LimitedErrorCountRetryPolicy.run_rpc]
    show LimitedErrorCountRetryPolicy.construct N
        (ChronoDur.ofMs d.castMs) = _
    unfold LimitedErrorCountRetryPolicy.construct
    rw [ChronoDur.castMs_ofMs]
  · unfold LimitedDurationRetryPolicy.clone
    show LimitedDurationRetryPolicy.construct (ChronoDur.ofMs maxd.castMs)
        (ChronoDur.ofMs rpcd.castMs) now = _
    unfold LimitedDurationRetryPolicy.construct
    rw [ChronoDur.castMs_ofMs, ChronoDur.castMs_ofMs]
  · show (ChronoDur.ofMs maxd.castMs).castMs + now = _
    rw [ChronoDur.castMs_ofMs]

/-- C6: for a duration-limited policy and a transient status, `OnFailure`
returns true exactly when the clock reading is strictly earlier than the
fixed deadline `max_duration + now-at-construction`, and false from that
deadline onward. -/
theorem C6_duration_transient_iff (maxd rpcd : ChronoDur) (t0 : Int)
    (s : Status) (hs : s.IsPermanentFailure = false) (now : Int) :
    ((((LimitedDurationRetryPolicy.construct maxd rpcd t0).OnFailure
        s now).1 = true) ↔ now < maxd.castMs + t0)
    ∧ (maxd.castMs + t0 ≤ now →
        (((LimitedDurationRetryPolicy.construct maxd rpcd t0).OnFailure
          s now).1 = false)) := by
  unfold LimitedDurationRetryPolicy.OnFailure
  rw [hs]
  constructor
  · simp [LimitedDurationRetryPolicy.construct]
  · intro h
    have hnot : ¬ now < maxd.castMs + t0 := not_lt.mpr h
    simp [LimitedDurationRetryPolicy.construct, hnot]

/-- C6 witness: `max_duration = 5000 ms`, construction at 0, transient call
at 4900. -/
theorem C6_witness :
    ((((LimitedDurationRetryPolicy.construct (ChronoDur.ofMs 5000)
        (ChronoDur.ofMs 1000) 0).OnFailure ⟨false⟩ 4900).1 = true)
      ↔ (4900 : Int) < (ChronoDur.ofMs 5000).castMs + 0)
    ∧ ((ChronoDur.ofMs 5000).castMs + 0 ≤ (4900 : Int) →
        (((LimitedDurationRetryPolicy.construct (ChronoDur.ofMs 5000)
          (ChronoDur.ofMs 1000) 0).OnFailure ⟨false⟩ 4900).1 = false)) :=
  C6_duration_transient_iff (ChronoDur.ofMs 5000) (ChronoDur.ofMs 1000) 0
    ⟨false⟩ rfl 4900

/-- C7: `OperationDeadline` of an error-count policy, in any state, returns
the clock reading at the call plus the stored rpc duration; for a freshly
constructed policy that stored duration is the millisecond cast of the
configured one. -/
theorem C7_error_count_op_deadline (p : LimitedErrorCountRetryPolicy)
    (N : Int) (d : ChronoDur) (now : Int) :
    (p.OperationDeadline now).1 = now + p.rpc_duration
    ∧ ((LimitedErrorCountRetryPolicy.construct N d).OperationDeadline
        now).1 = now + d.castMs :=
  ⟨rfl, rfl⟩

/-- C8: `OperationDeadline` is side-effect-free for both variants: the state
after the call is the input state, so calls to it (in any number, at any
readings) change no future `OnFailure` or `OperationDeadline` outcome, and
its value is a function of the state and the clock reading alone. -/
theorem C8_op_deadline_pure (p : LimitedErrorCountRetryPolicy)
    (q : LimitedDurationRetryPolicy) (s : Status) (t1 t2 : Int) :
    (p.OperationDeadline t1).2 = p
    ∧ (q.OperationDeadline t1).2 = q
    ∧ (p.OperationDeadline t1).2.OnFailure s = p.OnFailure s
    ∧ (q.OperationDeadline t1).2.OnFailure s t2 = q.OnFailure s t2
    ∧ ((p.OperationDeadline t1).2.OperationDeadline t2).1
        = (p.OperationDeadline t2).1
    ∧ ((q.OperationDeadline t1).2.OperationDeadline t2).1
        = (q.OperationDeadline t2).1 :=
  ⟨rfl, rfl, rfl, rfl, rfl, rfl⟩

/-- C9: exhaustion is sticky.  For an error-count policy whose counter has
reached the maximum, every call of any subsequent run returns false and the
counter never decreases; for a duration-limited policy, once readings are at
or past the deadline (as they are from the first such reading on, under
non-decreasing clocks), every subsequent call returns false. -/
theorem C9_exhausted_sticky (p : LimitedErrorCountRetryPolicy)
    (ss : List Status) (hp : p.max_failures ≤ p.failure_count)
    (q : LimitedDurationRetryPolicy) (events : List (Status × Int))
    (hev : ∀ e ∈ events, q.deadline ≤ e.2) :
    (∀ b ∈ (p.run ss).1, b = false)
    ∧ p.failure_count ≤ (p.run ss).2.failure_count
    ∧ (∀ b ∈ (q.run events).1, b = false) :=
  ⟨LimitedErrorCountRetryPolicy.run_exhausted_count p ss hp,
   LimitedErrorCountRetryPolicy.run_count_mono p ss,
   LimitedDurationRetryPolicy.run_exhausted_time q events hev⟩

/-- C9 witness: an error-count policy with counter at its maximum of 3 fed a
transient then a permanent failure, and a duration policy past its deadline
of 5000 fed events at readings 5000 and 6000. -/
theorem C9_witness :
    (∀ b ∈ ((⟨100, 3, 3⟩ : LimitedErrorCountRetryPolicy).run
        [⟨false⟩, ⟨true⟩]).1, b = false)
    ∧ (3 : Int) ≤ ((⟨100, 3, 3⟩ : LimitedErrorCountRetryPolicy).run
        [⟨false⟩, ⟨true⟩]).2.failure_count
    ∧ (∀ b ∈ ((⟨1000, 5000, 5000⟩ : LimitedDurationRetryPolicy).run
        [(⟨false⟩, 5000), (⟨true⟩, 6000)]).1, b = false) :=
  C9_exhausted_sticky ⟨100, 3, 3⟩ [⟨false⟩, ⟨true⟩] (by decide)
    ⟨1000, 5000, 5000⟩ [(⟨false⟩, 5000), (⟨true⟩, 6000)] (by decide)

/-- C10: the constructors store the millisecond `duration_cast` of the
configured durations, and that cast truncates toward zero: writing `e` for
the exact value `rep * num * 1000` (in units of milliseconds times `den`),
the stored value `m` satisfies `m * den ≤ e < (m + 1) * den` when `e ≥ 0`
and the mirrored bounds when `e ≤ 0`.  In particular 999 microseconds casts
to 0 ms and the subsequent deadline arithmetic uses the truncated value. -/
theorem C10_duration_cast_truncates (N : Int) (d maxd rpcd : ChronoDur)
    (hden : 0 < d.den) (t0 now : Int) :
    (LimitedErrorCountRetryPolicy.construct N d).rpc_duration = d.castMs
    ∧ (LimitedDurationRetryPolicy.construct maxd rpcd t0).rpc_duration
        = rpcd.castMs
    ∧ (LimitedDurationRetryPolicy.construct maxd rpcd t0).max_duration
        = maxd.castMs
    ∧ (0 ≤ d.rep * d.num * 1000 →
        d.castMs * d.den ≤ d.rep * d.num * 1000
        ∧ d.rep * d.num * 1000 < (d.castMs + 1) * d.den)
    ∧ (d.rep * d.num * 1000 ≤ 0 →
        d.rep * d.num * 1000 ≤ d.castMs * d.den
        ∧ (d.castMs - 1) * d.den < d.rep * d.num * 1000)
    ∧ (ChronoDur.ofUs 999).castMs = 0
    ∧ (ChronoDur.ofUs (-999)).castMs = 0
    ∧ ((LimitedErrorCountRetryPolicy.construct N
        (ChronoDur.ofUs 999)).OperationDeadline now).1 = now := by
  refine ⟨rfl, rfl, rfl, ?_, ?_, by decide, by decide, ?_⟩
  · intro h
    unfold ChronoDur.castMs
    rw [Int.tdiv_eq_ediv h (le_of_lt hden)]
    exact ⟨Int.ediv_mul_le _ (ne_of_gt hden),
      Int.lt_ediv_add_one_mul_self _ hden⟩
  · intro h
    unfold ChronoDur.castMs
    have hneg : Int.tdiv (d.rep * d.num * 1000) d.den
        = -((-(d.rep * d.num * 1000)) / d.den) := by
      rw [← Int.tdiv_eq_ediv (neg_nonneg.mpr h) (le_of_lt hden),
        Int.neg_tdiv, neg_neg]
    rw [hneg]
    have h1 := Int.ediv_mul_le (-(d.rep * d.num * 1000)) (ne_of_gt hden)
    have h2 := Int.lt_ediv_add_one_mul_self (-(d.rep * d.num * 1000)) hden
    constructor <;> nlinarith
  · show now + (ChronoDur.ofUs 999).castMs = now
    have h999 : (ChronoDur.ofUs 999).castMs = 0 := by decide
    rw [h999, add_zero]

/-- C10 witness: a 999-microsecond duration (positive denominator) casts to
0 ms. -/
theorem C10_witness :
    (LimitedErrorCountRetryPolicy.construct 3
        (ChronoDur.ofUs 999)).rpc_duration = (ChronoDur.ofUs 999).castMs
    ∧ ((LimitedErrorCountRetryPolicy.construct 3
        (ChronoDur.ofUs 999)).OperationDeadline 7).1 = 7 :=
  ⟨(C10_duration_cast_truncates 3 (ChronoDur.ofUs 999) (ChronoDur.ofMs 5000)
      (ChronoDur.ofMs 1000) (by decide) 0 7).1,
   (C10_duration_cast_truncates 3 (ChronoDur.ofUs 999) (ChronoDur.ofMs 5000)
      (ChronoDur.ofMs 1000) (by decide) 0 7).2.2.2.2.2.2.2⟩
